import Mathlib

/-!
Shallow embedding of the follower-read eligibility logic in
`pkg/kv/kvserver/replica_follower_read.go` (functions `canServeFollowerRead`
and `maxClosed`) and of the MVCC write-too-old contract exercised by
`pkg/storage/testdata/mvcc_histories/write_too_old`, together with proofs
of the specification claims about them.

Side effects of the Go code (the follower-read counter metric, the
fire-and-forget refresh request to the closed-timestamp client, and the
Provider lookup inside `maxClosed`) are made observable as explicit fields
of the returned `FollowerReadOutcome`.
-/

set_option autoImplicit false

/-- Hybrid logical clock timestamp (`hlc.Timestamp`): wall time in
nanoseconds (int64) and a logical component (int32), ordered
lexicographically. Overflow is irrelevant to the modelled code paths. -/
structure Timestamp where
  wallTime : Int
  logical : Int
deriving DecidableEq, Repr

/-- The zero timestamp, Go's `hlc.Timestamp{}`. -/
def Timestamp.zero : Timestamp := ⟨0, 0⟩

/-- Strict lexicographic order on timestamps (`hlc.Timestamp.Less`). -/
def Timestamp.less (t s : Timestamp) : Bool :=
  decide (t.wallTime < s.wallTime ∨ (t.wallTime = s.wallTime ∧ t.logical < s.logical))

/-- Reflexive lexicographic order on timestamps (`hlc.Timestamp.LessEq`). -/
def Timestamp.lessEq (t s : Timestamp) : Bool :=
  decide (t.wallTime < s.wallTime ∨ (t.wallTime = s.wallTime ∧ t.logical ≤ s.logical))

/-- Timestamp forwarding (`hlc.Timestamp.Forward`): replace `t` with `s`
when `s` is larger, i.e. the lexicographic maximum of the two. -/
def Timestamp.forward (t s : Timestamp) : Timestamp :=
  if t.less s then s else t

/-- Lease classification (`roachpb.LeaseType`). -/
inductive LeaseType where
  | Epoch
  | Expiration
deriving DecidableEq, Repr

/-- Replica descriptor classification (`roachpb.ReplicaType`). -/
inductive ReplicaType where
  | VOTER_FULL
  | VOTER_INCOMING
  | VOTER_OUTGOING
  | NON_VOTER
  | LEARNER
deriving DecidableEq, Repr

/-- Replica descriptor (`roachpb.ReplicaDescriptor`): node id, store id and
the replica type returned by `GetType`. -/
structure ReplicaDescriptor where
  nodeID : Int
  storeID : Int
  typ : ReplicaType
deriving DecidableEq, Repr

/-- Range lease (`roachpb.Lease`): start timestamp, epoch, the descriptor
of the lease holder replica, and the optional expiration (set only for
expiration-based leases, matching the `lease.Expiration != nil` test in
`maxClosed`). -/
structure Lease where
  start : Timestamp
  epoch : Int
  replica : ReplicaDescriptor
  expiration : Option Timestamp
deriving DecidableEq, Repr

/-- Modelled from the spec: `roachpb.Lease.Type()` is not under `src/`; the
spec classifies a lease as epoch-based or expiration-based, with the
`expiration` field meaningful only for expiration-based leases. -/
def Lease.leaseType (l : Lease) : LeaseType :=
  if l.expiration.isSome then LeaseType.Expiration else LeaseType.Epoch

/-- Modelled from the spec: the transaction record fields consumed by
`canServeFollowerRead` (`Txn.MaxTimestamp`, the top of the uncertainty
interval, and `Txn.IsLocking()`); `roachpb.Transaction` is not under
`src/`. -/
structure Txn where
  maxTimestamp : Timestamp
  isLocking : Bool
deriving DecidableEq, Repr

/-- Modelled from the spec: the batch request fields consumed by
`canServeFollowerRead` (`Timestamp`, optional `Txn`, and the derived
predicates `IsLocking()` and `IsAllTransactional()`, treated as abstract
booleans as in the spec's data model); `roachpb.BatchRequest` is not under
`src/`. -/
structure BatchRequest where
  timestamp : Timestamp
  txn : Option Txn
  isLocking : Bool
  isAllTransactional : Bool
deriving DecidableEq, Repr

/-- The routing error detail (`roachpb.NotLeaseHolderError`): the claimed
lease holder (a nullable pointer in Go) and the lease it refers to. -/
structure NotLeaseHolderError where
  leaseHolder : Option ReplicaDescriptor
  lease : Lease
deriving DecidableEq, Repr

/-- A `roachpb.Error` as far as this code observes it: either it carries a
`NotLeaseHolderError` detail, or it is some other error (for instance one
produced by `roachpb.NewError` wrapping a replica-descriptor lookup
failure). -/
inductive RError where
  | notLeaseHolder (e : NotLeaseHolderError)
  | generic (msg : String)
deriving DecidableEq, Repr

/-- The `pErr.GetDetail().(*roachpb.NotLeaseHolderError)` type assertion. -/
def RError.getNotLeaseHolder : RError → Option NotLeaseHolderError
  | RError.notLeaseHolder e => some e
  | RError.generic _ => none

/-- The replica state consumed by `canServeFollowerRead` and `maxClosed`:
the snapshot of the mutex-guarded fields (`LeaseAppliedIndex`, `Lease`,
`initialMaxClosed`), the range id, the result of `GetReplicaDescriptor`,
the `FollowerReadsEnabled` cluster setting, and the closed timestamp
`Provider.MaxClosed` lookup as a function of
(nodeID, rangeID, epoch, lai). -/
structure Replica where
  rangeID : Int
  leaseAppliedIndex : Int
  lease : Lease
  initialMaxClosed : Timestamp
  replicaDescriptor : Except String ReplicaDescriptor
  followerReadsEnabled : Bool
  provider : Int → Int → Int → Int → Timestamp

/-- Modelled from the spec: `GetReplicaDescriptor` (not under `src/`) fails
iff the local replica has been removed from the range; the outcome is part
of the replica state snapshot. -/
def Replica.getReplicaDescriptor (r : Replica) : Except String ReplicaDescriptor :=
  r.replicaDescriptor

/-- The `maxClosed` method of `Replica`: zero and `ok=false` for an
expiration-based lease, otherwise the Provider watermark for the current
lease holder, epoch and lease applied index, forwarded by the lease start
and by the initial max-closed value recorded at range creation. -/
def Replica.maxClosed (r : Replica) : Timestamp × Bool :=
  let lai := r.leaseAppliedIndex
  let lease := r.lease
  let initialMaxClosed := r.initialMaxClosed
  if lease.expiration.isSome then
    (Timestamp.zero, false)
  else
    let m := r.provider lease.replica.nodeID r.rangeID lease.epoch lai
    let m := m.forward lease.start
    let m := m.forward initialMaxClosed
    (m, true)

/-- The `ba.Txn == nil || !ba.Txn.IsLocking()` conjunct of the eligibility
test (the source comment names it `followerreadsccl.txnCanPerformFollowerRead`). -/
def txnOk (ba : BatchRequest) : Bool :=
  match ba.txn with
  | none => true
  | some txn => !txn.isLocking

/-- The effective request timestamp: `ts := ba.Timestamp` forwarded to
`ba.Txn.MaxTimestamp` when the batch carries a transaction (lines 67-70 of
`replica_follower_read.go`). -/
def effectiveTimestamp (ba : BatchRequest) : Timestamp :=
  match ba.txn with
  | none => ba.timestamp
  | some txn => ba.timestamp.forward txn.maxTimestamp

/-- Observable outcome of one `canServeFollowerRead` call: the returned
error (`none` means the batch is served locally), the number of increments
of the `FollowerReadsCount` metric, the list of `(nodeID, rangeID)`
refresh requests issued to the closed-timestamp client, and whether the
Provider was consulted (the lookup inside `maxClosed`, which happens iff
control reaches the timestamp comparison and the lease is not
expiration-based). -/
structure FollowerReadOutcome where
  result : Option RError
  followerReadsCount : Nat
  refreshRequests : List (Int × Int)
  providerConsulted : Bool
deriving DecidableEq, Repr

/-- The `canServeFollowerRead` method of `Replica`, mirroring the Go
control flow: extract the `NotLeaseHolderError` detail, evaluate the
`eligible` conjunction, resolve the replica descriptor, check the replica
type, and compare the effective timestamp with `maxClosed`. -/
def Replica.canServeFollowerRead (r : Replica) (ba : BatchRequest) (pErr : RError) :
    FollowerReadOutcome :=
  match RError.getNotLeaseHolder pErr with
  | none => ⟨some pErr, 0, [], false⟩
  | some lErr =>
    if lErr.leaseHolder.isSome && (lErr.lease.leaseType == LeaseType.Epoch)
        && (!ba.isLocking && ba.isAllTransactional)
        && txnOk ba
        && r.followerReadsEnabled then
      match r.getReplicaDescriptor with
      | Except.error err => ⟨some (RError.generic err), 0, [], false⟩
      | Except.ok repDesc =>
        match repDesc.typ with
        | ReplicaType.VOTER_FULL | ReplicaType.VOTER_INCOMING | ReplicaType.NON_VOTER =>
          if (effectiveTimestamp ba).lessEq (r.maxClosed).fst then
            ⟨none, 1, [], r.lease.expiration.isNone⟩
          else
            match lErr.leaseHolder with
            | some lh => ⟨some pErr, 0, [(lh.nodeID, r.rangeID)], r.lease.expiration.isNone⟩
            | none => ⟨some pErr, 0, [], r.lease.expiration.isNone⟩
        | _ => ⟨some pErr, 0, [], false⟩
    else
      ⟨some pErr, 0, [], false⟩

/-- Modelled from the spec: an MVCC value is bytes or a tombstone (the MVCC
storage engine is not under `src/`, only its `write_too_old` history test
data). -/
inductive MVCCValue where
  | bytes (v : String)
  | tombstone
deriving DecidableEq, Repr

/-- Modelled from the spec: one committed version of a key. -/
structure MVCCVersion where
  ts : Timestamp
  val : MVCCValue
deriving DecidableEq, Repr

/-- Modelled from the spec: the `WriteTooOldError` conflict signal, carrying
the requested timestamp and the `actual` timestamp the write was applied
at. -/
structure WriteTooOldError where
  requested : Timestamp
  actual : Timestamp
deriving DecidableEq, Repr

/-- Modelled from the spec: the timestamp of the latest committed version in
a key's history (the zero timestamp for an empty history). -/
def maxVersionTs (h : List MVCCVersion) : Timestamp :=
  h.foldl (fun acc v => acc.forward v.ts) Timestamp.zero

/-- Modelled from the spec: the MVCC `Put`/`Delete` conflict contract of
section 4.1 (the storage engine itself is not under `src/`). A history is
the list of committed versions of one key, newest first. When a committed
version exists at a timestamp at or above the requested one, the write
fails with `WriteTooOldError` whose `actual` timestamp keeps the wall time
of the latest conflicting version and bumps its logical component by one
(the smallest timestamp strictly above every conflicting version), and the
write is still applied at `actual`; otherwise it is applied at the
requested timestamp. -/
def mvccPut (h : List MVCCVersion) (ts : Timestamp) (v : MVCCValue) :
    List MVCCVersion × Option WriteTooOldError :=
  if h.any (fun ver => ts.lessEq ver.ts) then
    let m := maxVersionTs h
    let actual : Timestamp := ⟨m.wallTime, m.logical + 1⟩
    (⟨actual, v⟩ :: h, some ⟨ts, actual⟩)
  else
    (⟨ts, v⟩ :: h, none)

/-- Fixture: a VOTER_FULL replica descriptor on node 1, store 1. -/
def nodeA : ReplicaDescriptor := ⟨1, 1, ReplicaType.VOTER_FULL⟩

/-- Fixture: an epoch-based lease (epoch 5, start 10) held by `nodeA`. -/
def epochLease : Lease := ⟨⟨10, 0⟩, 5, nodeA, none⟩

/-- Fixture: an expiration-based lease held by `nodeA`. -/
def expirationLease : Lease := ⟨⟨10, 0⟩, 0, nodeA, some ⟨500, 0⟩⟩

/-- Fixture: a `NotLeaseHolderError` naming `nodeA` and the epoch lease. -/
def nlheEpoch : NotLeaseHolderError := ⟨some nodeA, epochLease⟩

/-- Fixture: an error carrying `nlheEpoch`. -/
def pErrEpoch : RError := RError.notLeaseHolder nlheEpoch

/-- Fixture: a `NotLeaseHolderError` with a nil lease holder but an epoch
lease. -/
def nlheNoHolder : NotLeaseHolderError := ⟨none, epochLease⟩

/-- Fixture: an error carrying `nlheNoHolder`. -/
def pErrNoHolder : RError := RError.notLeaseHolder nlheNoHolder

/-- Fixture: a Provider answering every lookup with the same watermark. -/
def constProvider (t : Timestamp) : Int → Int → Int → Int → Timestamp :=
  fun _ _ _ _ => t

/-- Fixture: range 2, lease applied index 7, epoch lease, follower reads
enabled, local descriptor `nodeA`, Provider watermark 100. -/
def rBase : Replica :=
  ⟨2, 7, epochLease, Timestamp.zero, Except.ok nodeA, true, constProvider ⟨100, 0⟩⟩

/-- Fixture: like `rBase` but the current lease is expiration-based. -/
def rExp : Replica :=
  ⟨2, 7, expirationLease, Timestamp.zero, Except.ok nodeA, true, constProvider ⟨100, 0⟩⟩

/-- Fixture: like `rBase` after a lease transfer — new epoch 6, lease start
200, and a Provider that still answers zero for every lookup. -/
def rTransfer : Replica :=
  ⟨2, 7, ⟨⟨200, 0⟩, 6, nodeA, none⟩, Timestamp.zero, Except.ok nodeA, true,
    constProvider Timestamp.zero⟩

/-- Fixture: like `rBase` but the local replica has been removed, so the
descriptor lookup fails. -/
def rDescErr : Replica :=
  ⟨2, 7, epochLease, Timestamp.zero, Except.error "replica removed", true,
    constProvider ⟨100, 0⟩⟩

/-- Fixture: a non-locking, all-transactional batch without a transaction
record, at the given timestamp. -/
def roBatch (ts : Timestamp) : BatchRequest := ⟨ts, none, false, true⟩

/-- Fixture: a non-locking all-transactional batch at timestamp 90 whose
transaction has `MaxTimestamp` 150. -/
def txnBatch : BatchRequest := ⟨⟨90, 0⟩, some ⟨⟨150, 0⟩, false⟩, false, true⟩

/-- Fixture: a locking batch at timestamp 90. -/
def lockingBatch : BatchRequest := ⟨⟨90, 0⟩, none, true, true⟩

/-- Characterisation of `Timestamp.lessEq` as a lexicographic comparison. -/
theorem Timestamp.lessEq_iff {t s : Timestamp} :
    t.lessEq s = true ↔
      t.wallTime < s.wallTime ∨ (t.wallTime = s.wallTime ∧ t.logical ≤ s.logical) := by
  simp [Timestamp.lessEq]

/-- Characterisation of `Timestamp.less` as a strict lexicographic comparison. -/
theorem Timestamp.less_iff {t s : Timestamp} :
    t.less s = true ↔
      t.wallTime < s.wallTime ∨ (t.wallTime = s.wallTime ∧ t.logical < s.logical) := by
  simp [Timestamp.less]

/-- Reflexivity of `Timestamp.lessEq`. -/
theorem Timestamp.lessEq_refl (t : Timestamp) : t.lessEq t = true := by
  simp [Timestamp.lessEq]

/-- Transitivity of `Timestamp.lessEq`. -/
theorem Timestamp.lessEq_trans {t s u : Timestamp} (h1 : t.lessEq s = true)
    (h2 : s.lessEq u = true) : t.lessEq u = true := by
  simp [Timestamp.lessEq] at h1 h2 ⊢
  omega

/-- Antisymmetry of `Timestamp.lessEq`. -/
theorem Timestamp.lessEq_antisymm {t s : Timestamp} (h1 : t.lessEq s = true)
    (h2 : s.lessEq t = true) : t = s := by
  cases t with
  | mk tw tl =>
    cases s with
    | mk sw sl =>
      simp [Timestamp.lessEq] at h1 h2 ⊢
      omega

/-- Totality: when `lessEq` fails one way it holds the other way. -/
theorem Timestamp.lessEq_of_not_lessEq {t s : Timestamp} (h : t.lessEq s = false) :
    s.lessEq t = true := by
  simp [Timestamp.lessEq] at h ⊢
  omega

/-- A strictly positive timestamp is not below the zero timestamp. -/
theorem Timestamp.not_lessEq_zero_of_pos {t : Timestamp}
    (h : Timestamp.zero.less t = true) : t.lessEq Timestamp.zero = false := by
  simp [Timestamp.less, Timestamp.zero] at h
  simp [Timestamp.lessEq, Timestamp.zero]
  omega

/-- The first argument is below its forwarding with anything. -/
theorem Timestamp.lessEq_forward_left (t s : Timestamp) : t.lessEq (t.forward s) = true := by
  cases h : t.less s with
  | false =>
    simp [Timestamp.forward, h, Timestamp.lessEq]
  | true =>
    simp [Timestamp.forward, h]
    simp [Timestamp.less] at h
    simp [Timestamp.lessEq]
    omega

/-- The second argument is below the forwarding of anything with it. -/
theorem Timestamp.lessEq_forward_right (t s : Timestamp) : s.lessEq (t.forward s) = true := by
  cases h : t.less s with
  | false =>
    simp [Timestamp.forward, h]
    simp [Timestamp.less] at h
    simp [Timestamp.lessEq]
    omega
  | true =>
    simp [Timestamp.forward, h, Timestamp.lessEq]

/-- Forwarding is the least upper bound of its two arguments. -/
theorem Timestamp.forward_lessEq {t s u : Timestamp} (h1 : t.lessEq u = true)
    (h2 : s.lessEq u = true) : (t.forward s).lessEq u = true := by
  cases h : t.less s with
  | false => simpa [Timestamp.forward, h] using h1
  | true => simpa [Timestamp.forward, h] using h2

/-- Inversion for the `NotLeaseHolderError` detail extraction. -/
theorem RError.eq_notLeaseHolder_of_getNotLeaseHolder {pErr : RError}
    {lErr : NotLeaseHolderError} (h : pErr.getNotLeaseHolder = some lErr) :
    pErr = RError.notLeaseHolder lErr := by
  cases pErr with
  | notLeaseHolder e => simp [RError.getNotLeaseHolder] at h; rw [h]
  | generic m => simp [RError.getNotLeaseHolder] at h

/-- Branch computation: without a `NotLeaseHolderError` detail the call
returns the prior error with no side effect. -/
theorem canServe_no_detail (r : Replica) (ba : BatchRequest) (pErr : RError)
    (hE : pErr.getNotLeaseHolder = none) :
    r.canServeFollowerRead ba pErr = ⟨some pErr, 0, [], false⟩ := by
  unfold Replica.canServeFollowerRead
  rw [hE]

/-- Branch computation: when the `eligible` conjunction is false the call
returns the prior error with no side effect. -/
theorem canServe_not_eligible (r : Replica) (ba : BatchRequest) (pErr : RError)
    (lErr : NotLeaseHolderError) (hE : pErr.getNotLeaseHolder = some lErr)
    (hel : (lErr.leaseHolder.isSome && (lErr.lease.leaseType == LeaseType.Epoch)
        && (!ba.isLocking && ba.isAllTransactional)
        && txnOk ba
        && r.followerReadsEnabled) = false) :
    r.canServeFollowerRead ba pErr = ⟨some pErr, 0, [], false⟩ := by
  unfold Replica.canServeFollowerRead
  rw [hE]
  simp [hel]

/-- Branch computation: when the batch is eligible but the descriptor lookup
fails, the call returns a fresh wrapped error. -/
theorem canServe_descriptor_error (r : Replica) (ba : BatchRequest) (pErr : RError)
    (lErr : NotLeaseHolderError) (e : String)
    (hE : pErr.getNotLeaseHolder = some lErr)
    (hel : (lErr.leaseHolder.isSome && (lErr.lease.leaseType == LeaseType.Epoch)
        && (!ba.isLocking && ba.isAllTransactional)
        && txnOk ba
        && r.followerReadsEnabled) = true)
    (hD : r.getReplicaDescriptor = Except.error e) :
    r.canServeFollowerRead ba pErr = ⟨some (RError.generic e), 0, [], false⟩ := by
  unfold Replica.canServeFollowerRead
  rw [hE]
  simp [hel, hD]

/-- Branch computation: an eligible batch on a replica whose descriptor type
cannot serve follower reads gets the prior error back with no side effect. -/
theorem canServe_bad_type (r : Replica) (ba : BatchRequest) (pErr : RError)
    (lErr : NotLeaseHolderError) (d : ReplicaDescriptor)
    (hE : pErr.getNotLeaseHolder = some lErr)
    (hel : (lErr.leaseHolder.isSome && (lErr.lease.leaseType == LeaseType.Epoch)
        && (!ba.isLocking && ba.isAllTransactional)
        && txnOk ba
        && r.followerReadsEnabled) = true)
    (hD : r.getReplicaDescriptor = Except.ok d)
    (hT : d.typ = ReplicaType.VOTER_OUTGOING ∨ d.typ = ReplicaType.LEARNER) :
    r.canServeFollowerRead ba pErr = ⟨some pErr, 0, [], false⟩ := by
  unfold Replica.canServeFollowerRead
  rw [hE]
  rcases hT with h | h <;> simp [hel, hD, h]

/-- Branch computation: a fully eligible batch whose effective timestamp is
at or below the closed timestamp is served locally, incrementing the
counter. -/
theorem canServe_serve (r : Replica) (ba : BatchRequest) (pErr : RError)
    (lErr : NotLeaseHolderError) (d : ReplicaDescriptor)
    (hE : pErr.getNotLeaseHolder = some lErr)
    (hel : (lErr.leaseHolder.isSome && (lErr.lease.leaseType == LeaseType.Epoch)
        && (!ba.isLocking && ba.isAllTransactional)
        && txnOk ba
        && r.followerReadsEnabled) = true)
    (hD : r.getReplicaDescriptor = Except.ok d)
    (hT : d.typ = ReplicaType.VOTER_FULL ∨ d.typ = ReplicaType.VOTER_INCOMING ∨
      d.typ = ReplicaType.NON_VOTER)
    (hTs : (effectiveTimestamp ba).lessEq (r.maxClosed).fst = true) :
    r.canServeFollowerRead ba pErr = ⟨none, 1, [], r.lease.expiration.isNone⟩ := by
  unfold Replica.canServeFollowerRead
  rw [hE]
  rcases hT with h | h | h <;> simp [hel, hD, h, hTs]

/-- Branch computation: a fully eligible batch whose effective timestamp is
above the closed timestamp gets the prior error back together with one
refresh request for the lease holder's node and this range. -/
theorem canServe_refresh (r : Replica) (ba : BatchRequest) (pErr : RError)
    (lErr : NotLeaseHolderError) (lh : ReplicaDescriptor) (d : ReplicaDescriptor)
    (hE : pErr.getNotLeaseHolder = some lErr)
    (hLH : lErr.leaseHolder = some lh)
    (hel : (lErr.leaseHolder.isSome && (lErr.lease.leaseType == LeaseType.Epoch)
        && (!ba.isLocking && ba.isAllTransactional)
        && txnOk ba
        && r.followerReadsEnabled) = true)
    (hD : r.getReplicaDescriptor = Except.ok d)
    (hT : d.typ = ReplicaType.VOTER_FULL ∨ d.typ = ReplicaType.VOTER_INCOMING ∨
      d.typ = ReplicaType.NON_VOTER)
    (hTs : (effectiveTimestamp ba).lessEq (r.maxClosed).fst = false) :
    r.canServeFollowerRead ba pErr =
      ⟨some pErr, 0, [(lh.nodeID, r.rangeID)], r.lease.expiration.isNone⟩ := by
  unfold Replica.canServeFollowerRead
  rw [hE]
  rcases hT with h | h | h <;> (simp [hel, hD, h, hTs]; simp [hLH])

/-- Master characterisation: `canServeFollowerRead` clears the error iff
every eligibility condition holds — a `NotLeaseHolderError` detail with a
set lease holder and an epoch-based lease, a non-locking all-transactional
batch with a non-locking transaction (if any), the feature setting enabled,
an eligible local replica type — and the effective timestamp is at or below
the range's maximum closed timestamp. -/
theorem canServe_result_none_iff (r : Replica) (ba : BatchRequest) (pErr : RError) :
    (r.canServeFollowerRead ba pErr).result = none ↔
      ∃ lErr lh d,
        pErr.getNotLeaseHolder = some lErr ∧
        lErr.leaseHolder = some lh ∧
        lErr.lease.leaseType = LeaseType.Epoch ∧
        ba.isLocking = false ∧
        ba.isAllTransactional = true ∧
        txnOk ba = true ∧
        r.followerReadsEnabled = true ∧
        r.getReplicaDescriptor = Except.ok d ∧
        (d.typ = ReplicaType.VOTER_FULL ∨ d.typ = ReplicaType.VOTER_INCOMING ∨
          d.typ = ReplicaType.NON_VOTER) ∧
        (effectiveTimestamp ba).lessEq (r.maxClosed).fst = true := by
  constructor
  · intro hres
    cases hE : pErr.getNotLeaseHolder with
    | none =>
      rw [canServe_no_detail r ba pErr hE] at hres
      simp at hres
    | some lErr =>
      cases hel : (lErr.leaseHolder.isSome && (lErr.lease.leaseType == LeaseType.Epoch)
          && (!ba.isLocking && ba.isAllTransactional)
          && txnOk ba
          && r.followerReadsEnabled) with
      | false =>
        rw [canServe_not_eligible r ba pErr lErr hE hel] at hres
        simp at hres
      | true =>
        have hel2 := hel
        simp only [Bool.and_eq_true, beq_iff_eq, Bool.not_eq_true'] at hel2
        obtain ⟨⟨⟨⟨hLHs, hEp⟩, hLock, hAll⟩, hTxn⟩, hEn⟩ := hel2
        obtain ⟨lh, hLH⟩ := Option.isSome_iff_exists.mp hLHs
        cases hD : r.getReplicaDescriptor with
        | error e =>
          rw [canServe_descriptor_error r ba pErr lErr e hE hel hD] at hres
          simp at hres
        | ok d =>
          by_cases hT : d.typ = ReplicaType.VOTER_FULL ∨ d.typ = ReplicaType.VOTER_INCOMING ∨
              d.typ = ReplicaType.NON_VOTER
          · cases hTs : (effectiveTimestamp ba).lessEq (r.maxClosed).fst with
            | true =>
              exact ⟨lErr, lh, d, rfl, hLH, hEp, hLock, hAll, hTxn, hEn, rfl, hT, rfl⟩
            | false =>
              rw [canServe_refresh r ba pErr lErr lh d hE hLH hel hD hT hTs] at hres
              simp at hres
          · have hT2 : d.typ = ReplicaType.VOTER_OUTGOING ∨ d.typ = ReplicaType.LEARNER := by
              cases h : d.typ <;> simp_all
            rw [canServe_bad_type r ba pErr lErr d hE hel hD hT2] at hres
            simp at hres
  · rintro ⟨lErr, lh, d, hE, hLH, hEp, hLock, hAll, hTxn, hEn, hD, hT, hTs⟩
    have hel : (lErr.leaseHolder.isSome && (lErr.lease.leaseType == LeaseType.Epoch)
        && (!ba.isLocking && ba.isAllTransactional)
        && txnOk ba
        && r.followerReadsEnabled) = true := by
      simp [hLH, hEp, hLock, hAll, hTxn, hEn]
    rw [canServe_serve r ba pErr lErr d hE hel hD hT hTs]

/-- C3: with a committed version of key a at timestamp 44.000000000,0, a
subsequent Put or Delete requested at timestamp 33 returns a
`WriteTooOldError` whose actual timestamp is 44.000000000,1 (same wall
time, logical bumped to 1); the write is nevertheless applied at
44.000000000,1, and the pre-existing version at 44.000000000,0 remains
unchanged. -/
theorem writeTooOld_C3 (v w : MVCCValue) :
    mvccPut [⟨⟨44000000000, 0⟩, v⟩] ⟨33000000000, 0⟩ w =
      ([⟨⟨44000000000, 1⟩, w⟩, ⟨⟨44000000000, 0⟩, v⟩],
        some ⟨⟨33000000000, 0⟩, ⟨44000000000, 1⟩⟩) := by
  simp [mvccPut, maxVersionTs, Timestamp.lessEq, Timestamp.forward, Timestamp.less,
    Timestamp.zero]

/-- C9: when the `NotLeaseHolderError` detail has a nil lease holder field,
`canServeFollowerRead` returns the prior error unchanged with no side
effect, no matter what every other eligibility condition evaluates to. -/
theorem followerRead_C9 (r : Replica) (ba : BatchRequest) (pErr : RError)
    (lErr : NotLeaseHolderError)
    (hE : pErr.getNotLeaseHolder = some lErr)
    (hLH : lErr.leaseHolder = none) :
    r.canServeFollowerRead ba pErr = ⟨some pErr, 0, [], false⟩ := by
  apply canServe_not_eligible r ba pErr lErr hE
  simp [hLH]

/-- C9 witness: a request that would otherwise be eligible on `rBase` is
still bounced when the error names no lease holder. -/
theorem followerRead_C9_witness :
    rBase.canServeFollowerRead (roBatch ⟨90, 0⟩) pErrNoHolder =
      ⟨some pErrNoHolder, 0, [], false⟩ :=
  followerRead_C9 rBase (roBatch ⟨90, 0⟩) pErrNoHolder nlheNoHolder rfl rfl

/-- C8: for an otherwise-eligible request, a failing replica-descriptor
lookup makes `canServeFollowerRead` return a new error wrapping that
failure — not the prior `NotLeaseHolderError` and not nil — and nothing is
served locally. -/
theorem followerRead_C8 (r : Replica) (ba : BatchRequest) (pErr : RError)
    (lErr : NotLeaseHolderError) (e : String)
    (hE : pErr.getNotLeaseHolder = some lErr)
    (hLH : lErr.leaseHolder.isSome = true)
    (hEp : lErr.lease.leaseType = LeaseType.Epoch)
    (hLock : ba.isLocking = false)
    (hAll : ba.isAllTransactional = true)
    (hTxn : txnOk ba = true)
    (hEn : r.followerReadsEnabled = true)
    (hD : r.getReplicaDescriptor = Except.error e) :
    (r.canServeFollowerRead ba pErr).result = some (RError.generic e) ∧
    (r.canServeFollowerRead ba pErr).result ≠ some pErr ∧
    (r.canServeFollowerRead ba pErr).result ≠ none ∧
    (r.canServeFollowerRead ba pErr).followerReadsCount = 0 := by
  have hel : (lErr.leaseHolder.isSome && (lErr.lease.leaseType == LeaseType.Epoch)
      && (!ba.isLocking && ba.isAllTransactional)
      && txnOk ba
      && r.followerReadsEnabled) = true := by
    simp [hLH, hEp, hLock, hAll, hTxn, hEn]
  rw [canServe_descriptor_error r ba pErr lErr e hE hel hD]
  have hpe : pErr = RError.notLeaseHolder lErr :=
    RError.eq_notLeaseHolder_of_getNotLeaseHolder hE
  subst hpe
  simp

/-- C8 witness: on `rDescErr` (descriptor lookup fails) the otherwise
eligible request at timestamp 90 gets a fresh wrapped error. -/
theorem followerRead_C8_witness :
    (rDescErr.canServeFollowerRead (roBatch ⟨90, 0⟩) pErrEpoch).result =
      some (RError.generic "replica removed") ∧
    (rDescErr.canServeFollowerRead (roBatch ⟨90, 0⟩) pErrEpoch).result ≠ some pErrEpoch ∧
    (rDescErr.canServeFollowerRead (roBatch ⟨90, 0⟩) pErrEpoch).result ≠ none ∧
    (rDescErr.canServeFollowerRead (roBatch ⟨90, 0⟩) pErrEpoch).followerReadsCount = 0 :=
  followerRead_C8 rDescErr (roBatch ⟨90, 0⟩) pErrEpoch nlheEpoch "replica removed"
    rfl rfl rfl rfl rfl rfl rfl rfl

/-- C5: when every eligibility condition holds except the timestamp
comparison (the effective timestamp is above the computed maximum closed
timestamp), `canServeFollowerRead` issues exactly one refresh request for
the pair (lease holder node, range) and returns the prior error
unchanged, incrementing nothing. -/
theorem followerRead_C5 (r : Replica) (ba : BatchRequest) (pErr : RError)
    (lErr : NotLeaseHolderError) (lh d : ReplicaDescriptor)
    (hE : pErr.getNotLeaseHolder = some lErr)
    (hLH : lErr.leaseHolder = some lh)
    (hEp : lErr.lease.leaseType = LeaseType.Epoch)
    (hLock : ba.isLocking = false)
    (hAll : ba.isAllTransactional = true)
    (hTxn : txnOk ba = true)
    (hEn : r.followerReadsEnabled = true)
    (hD : r.getReplicaDescriptor = Except.ok d)
    (hT : d.typ = ReplicaType.VOTER_FULL ∨ d.typ = ReplicaType.VOTER_INCOMING ∨
      d.typ = ReplicaType.NON_VOTER)
    (hTs : (effectiveTimestamp ba).lessEq (r.maxClosed).fst = false) :
    (r.canServeFollowerRead ba pErr).result = some pErr ∧
    (r.canServeFollowerRead ba pErr).refreshRequests = [(lh.nodeID, r.rangeID)] ∧
    (r.canServeFollowerRead ba pErr).followerReadsCount = 0 := by
  have hel : (lErr.leaseHolder.isSome && (lErr.lease.leaseType == LeaseType.Epoch)
      && (!ba.isLocking && ba.isAllTransactional)
      && txnOk ba
      && r.followerReadsEnabled) = true := by
    simp [hLH, hEp, hLock, hAll, hTxn, hEn]
  rw [canServe_refresh r ba pErr lErr lh d hE hLH hel hD hT hTs]
  simp

/-- C5 witness: on `rBase` (closed timestamp 100) the request at timestamp
110 is bounced with one refresh request for node 1, range 2. -/
theorem followerRead_C5_witness :
    (rBase.canServeFollowerRead (roBatch ⟨110, 0⟩) pErrEpoch).result = some pErrEpoch ∧
    (rBase.canServeFollowerRead (roBatch ⟨110, 0⟩) pErrEpoch).refreshRequests = [(1, 2)] ∧
    (rBase.canServeFollowerRead (roBatch ⟨110, 0⟩) pErrEpoch).followerReadsCount = 0 :=
  followerRead_C5 rBase (roBatch ⟨110, 0⟩) pErrEpoch nlheEpoch nodeA nodeA
    rfl rfl rfl rfl rfl rfl rfl rfl (Or.inl rfl) (by decide)

/-- C7: if the prior error carries no `NotLeaseHolderError` detail, or the
error's lease is not epoch-based, or the batch is locking, or not
all-transactional, or its transaction is locking, or the setting is
disabled, or the local replica's descriptor type is outside
{VOTER_FULL, VOTER_INCOMING, NON_VOTER}, then `canServeFollowerRead`
returns the prior error itself unchanged, without consulting the Provider,
incrementing the counter, or issuing a refresh request. -/
theorem followerRead_C7 (r : Replica) (ba : BatchRequest) (pErr : RError)
    (h : pErr.getNotLeaseHolder = none
       ∨ (∃ lErr, pErr.getNotLeaseHolder = some lErr ∧
            lErr.lease.leaseType ≠ LeaseType.Epoch)
       ∨ ba.isLocking = true
       ∨ ba.isAllTransactional = false
       ∨ (∃ txn, ba.txn = some txn ∧ txn.isLocking = true)
       ∨ r.followerReadsEnabled = false
       ∨ (∃ d, r.getReplicaDescriptor = Except.ok d ∧
            d.typ ≠ ReplicaType.VOTER_FULL ∧ d.typ ≠ ReplicaType.VOTER_INCOMING ∧
            d.typ ≠ ReplicaType.NON_VOTER)) :
    r.canServeFollowerRead ba pErr = ⟨some pErr, 0, [], false⟩ := by
  cases hE : pErr.getNotLeaseHolder with
  | none => exact canServe_no_detail r ba pErr hE
  | some lErr =>
    rcases h with h1 | ⟨lErr2, hE2, hNe⟩ | h3 | h4 | ⟨txn, hTx, hTl⟩ | h6 | ⟨d, hD, hd1, hd2, hd3⟩
    · rw [hE] at h1; cases h1
    · rw [hE] at hE2
      injection hE2 with he
      subst he
      apply canServe_not_eligible r ba pErr lErr hE
      have : (lErr.lease.leaseType == LeaseType.Epoch) = false := by
        simp [hNe]
      simp [this]
    · apply canServe_not_eligible r ba pErr lErr hE
      simp [h3]
    · apply canServe_not_eligible r ba pErr lErr hE
      simp [h4]
    · apply canServe_not_eligible r ba pErr lErr hE
      simp [txnOk, hTx, hTl]
    · apply canServe_not_eligible r ba pErr lErr hE
      simp [h6]
    · cases hel : (lErr.leaseHolder.isSome && (lErr.lease.leaseType == LeaseType.Epoch)
          && (!ba.isLocking && ba.isAllTransactional)
          && txnOk ba
          && r.followerReadsEnabled) with
      | false => exact canServe_not_eligible r ba pErr lErr hE hel
      | true =>
        have hT2 : d.typ = ReplicaType.VOTER_OUTGOING ∨ d.typ = ReplicaType.LEARNER := by
          cases ht : d.typ <;> simp_all
        exact canServe_bad_type r ba pErr lErr d hE hel hD hT2

/-- C7 witness: a locking batch on `rBase` gets the prior error back with no
side effect. -/
theorem followerRead_C7_witness :
    rBase.canServeFollowerRead lockingBatch pErrEpoch = ⟨some pErrEpoch, 0, [], false⟩ :=
  followerRead_C7 rBase lockingBatch pErrEpoch (Or.inr (Or.inr (Or.inl rfl)))

/-- C1 counterexample: every condition listed by the claim holds — the prior
error carries a `NotLeaseHolderError` whose lease is epoch-based, the
batch is non-locking, all-transactional and carries no transaction, the
setting is enabled, the local descriptor type is VOTER_FULL, and the
effective timestamp 90 is at or below the maximum closed timestamp 100 —
yet `canServeFollowerRead` does not return nil, because the error's lease
holder field is nil. -/
theorem followerRead_C1_counterexample :
    pErrNoHolder.getNotLeaseHolder = some nlheNoHolder ∧
    nlheNoHolder.lease.leaseType = LeaseType.Epoch ∧
    (roBatch ⟨90, 0⟩).isLocking = false ∧
    (roBatch ⟨90, 0⟩).isAllTransactional = true ∧
    txnOk (roBatch ⟨90, 0⟩) = true ∧
    rBase.followerReadsEnabled = true ∧
    rBase.getReplicaDescriptor = Except.ok nodeA ∧
    nodeA.typ = ReplicaType.VOTER_FULL ∧
    (effectiveTimestamp (roBatch ⟨90, 0⟩)).lessEq (rBase.maxClosed).fst = true ∧
    (rBase.canServeFollowerRead (roBatch ⟨90, 0⟩) pErrNoHolder).result ≠ none :=
  ⟨rfl, rfl, rfl, rfl, rfl, rfl, rfl, rfl, by decide, by decide⟩

/-- C1 (amended): `canServeFollowerRead` returns nil iff the prior error
carries a `NotLeaseHolderError` whose lease holder field is set and whose
lease is epoch-based, the batch is non-locking and all-transactional, its
transaction (if any) is non-locking, the follower-reads setting is
enabled, the local replica descriptor resolves with type VOTER_FULL,
VOTER_INCOMING or NON_VOTER, and the effective timestamp is at or below
the range's maximum closed timestamp; and whenever nil is returned the
follower-reads counter is incremented. -/
theorem followerRead_C1 (r : Replica) (ba : BatchRequest) (pErr : RError) :
    ((r.canServeFollowerRead ba pErr).result = none ↔
      ∃ lErr lh d,
        pErr.getNotLeaseHolder = some lErr ∧
        lErr.leaseHolder = some lh ∧
        lErr.lease.leaseType = LeaseType.Epoch ∧
        ba.isLocking = false ∧
        ba.isAllTransactional = true ∧
        txnOk ba = true ∧
        r.followerReadsEnabled = true ∧
        r.getReplicaDescriptor = Except.ok d ∧
        (d.typ = ReplicaType.VOTER_FULL ∨ d.typ = ReplicaType.VOTER_INCOMING ∨
          d.typ = ReplicaType.NON_VOTER) ∧
        (effectiveTimestamp ba).lessEq (r.maxClosed).fst = true) ∧
    ((r.canServeFollowerRead ba pErr).result = none →
      (r.canServeFollowerRead ba pErr).followerReadsCount = 1) := by
  refine ⟨canServe_result_none_iff r ba pErr, ?_⟩
  intro hres
  obtain ⟨lErr, lh, d, hE, hLH, hEp, hLock, hAll, hTxn, hEn, hD, hT, hTs⟩ :=
    (canServe_result_none_iff r ba pErr).mp hres
  have hel : (lErr.leaseHolder.isSome && (lErr.lease.leaseType == LeaseType.Epoch)
      && (!ba.isLocking && ba.isAllTransactional)
      && txnOk ba
      && r.followerReadsEnabled) = true := by
    simp [hLH, hEp, hLock, hAll, hTxn, hEn]
  rw [canServe_serve r ba pErr lErr d hE hel hD hT hTs]

/-- C1 witness: the scenario with closed timestamp 100 and request timestamp
90 on a VOTER_FULL replica is served locally with the counter incremented,
and the amended equivalence holds at that input. -/
theorem followerRead_C1_witness :
    (rBase.canServeFollowerRead (roBatch ⟨90, 0⟩) pErrEpoch).result = none ∧
    (rBase.canServeFollowerRead (roBatch ⟨90, 0⟩) pErrEpoch).followerReadsCount = 1 ∧
    (((rBase.canServeFollowerRead (roBatch ⟨90, 0⟩) pErrEpoch).result = none ↔
      ∃ lErr lh d,
        pErrEpoch.getNotLeaseHolder = some lErr ∧
        lErr.leaseHolder = some lh ∧
        lErr.lease.leaseType = LeaseType.Epoch ∧
        (roBatch ⟨90, 0⟩).isLocking = false ∧
        (roBatch ⟨90, 0⟩).isAllTransactional = true ∧
        txnOk (roBatch ⟨90, 0⟩) = true ∧
        rBase.followerReadsEnabled = true ∧
        rBase.getReplicaDescriptor = Except.ok d ∧
        (d.typ = ReplicaType.VOTER_FULL ∨ d.typ = ReplicaType.VOTER_INCOMING ∨
          d.typ = ReplicaType.NON_VOTER) ∧
        (effectiveTimestamp (roBatch ⟨90, 0⟩)).lessEq (rBase.maxClosed).fst = true) ∧
    ((rBase.canServeFollowerRead (roBatch ⟨90, 0⟩) pErrEpoch).result = none →
      (rBase.canServeFollowerRead (roBatch ⟨90, 0⟩) pErrEpoch).followerReadsCount = 1)) :=
  ⟨by decide, by decide, followerRead_C1 rBase (roBatch ⟨90, 0⟩) pErrEpoch⟩

/-- C2: for an epoch-based lease the maximum closed timestamp equals the
maximum of the Provider watermark for (lease holder node, range, lease
epoch, current lease applied index), the lease start, and the initial
max-closed value from range creation; consequently any timestamp at or
below the lease start is within the watermark (the lease-transfer floor). -/
theorem followerRead_C2 (r : Replica) (h : r.lease.expiration = none) :
    (r.maxClosed).fst =
      ((r.provider r.lease.replica.nodeID r.rangeID r.lease.epoch
          r.leaseAppliedIndex).forward r.lease.start).forward r.initialMaxClosed ∧
    (r.provider r.lease.replica.nodeID r.rangeID r.lease.epoch
        r.leaseAppliedIndex).lessEq (r.maxClosed).fst = true ∧
    r.lease.start.lessEq (r.maxClosed).fst = true ∧
    r.initialMaxClosed.lessEq (r.maxClosed).fst = true ∧
    (∀ t : Timestamp, t.lessEq r.lease.start = true → t.lessEq (r.maxClosed).fst = true) := by
  have hfst : (r.maxClosed).fst =
      ((r.provider r.lease.replica.nodeID r.rangeID r.lease.epoch
          r.leaseAppliedIndex).forward r.lease.start).forward r.initialMaxClosed := by
    simp [Replica.maxClosed, h]
  have hstart : r.lease.start.lessEq (r.maxClosed).fst = true := by
    rw [hfst]
    exact Timestamp.lessEq_trans (Timestamp.lessEq_forward_right _ _)
      (Timestamp.lessEq_forward_left _ _)
  refine ⟨hfst, ?_, hstart, ?_, ?_⟩
  · rw [hfst]
    exact Timestamp.lessEq_trans (Timestamp.lessEq_forward_left _ _)
      (Timestamp.lessEq_forward_left _ _)
  · rw [hfst]
    exact Timestamp.lessEq_forward_right _ _
  · intro t ht
    exact Timestamp.lessEq_trans ht hstart

/-- C2 witness: after the lease transfer modelled by `rTransfer` (lease
start 200, Provider still answering zero), the computed watermark is 200
and a request at timestamp 150 is served locally via the lease-start
floor; the general decomposition holds at that input. -/
theorem followerRead_C2_witness :
    (rTransfer.canServeFollowerRead (roBatch ⟨150, 0⟩) pErrEpoch).result = none ∧
    (rTransfer.maxClosed).fst = ⟨200, 0⟩ ∧
    ((rTransfer.maxClosed).fst =
      ((rTransfer.provider rTransfer.lease.replica.nodeID rTransfer.rangeID
          rTransfer.lease.epoch rTransfer.leaseAppliedIndex).forward
          rTransfer.lease.start).forward rTransfer.initialMaxClosed ∧
    (rTransfer.provider rTransfer.lease.replica.nodeID rTransfer.rangeID
        rTransfer.lease.epoch rTransfer.leaseAppliedIndex).lessEq
      (rTransfer.maxClosed).fst = true ∧
    rTransfer.lease.start.lessEq (rTransfer.maxClosed).fst = true ∧
    rTransfer.initialMaxClosed.lessEq (rTransfer.maxClosed).fst = true ∧
    (∀ t : Timestamp, t.lessEq rTransfer.lease.start = true →
      t.lessEq (rTransfer.maxClosed).fst = true)) :=
  ⟨by decide, by decide, followerRead_C2 rTransfer rfl⟩

/-- C4 counterexample: with an expiration-based lease on the replica,
`canServeFollowerRead` does not always return the original error — a
request whose effective timestamp is the zero timestamp is served locally
(nil returned), since it is compared against the zero watermark. -/
theorem followerRead_C4_counterexample :
    rExp.lease.expiration.isSome = true ∧
    (rExp.canServeFollowerRead (roBatch Timestamp.zero) pErrEpoch).result = none := by
  decide

/-- C4 (amended): `maxClosed` returns ok=false with a zero timestamp iff the
active lease is expiration-based; and under an expiration-based lease,
for any request whose effective timestamp is positive,
`canServeFollowerRead` never returns nil, and returns the original error
whenever the replica descriptor resolves. -/
theorem followerRead_C4 (r : Replica) (ba : BatchRequest) (pErr : RError) :
    ((r.maxClosed).snd = false ↔ r.lease.expiration.isSome = true) ∧
    (r.lease.expiration.isSome = true → r.maxClosed = (Timestamp.zero, false)) ∧
    (r.lease.expiration.isSome = true →
      Timestamp.zero.less (effectiveTimestamp ba) = true →
      (r.canServeFollowerRead ba pErr).result ≠ none ∧
      (∀ d, r.getReplicaDescriptor = Except.ok d →
        (r.canServeFollowerRead ba pErr).result = some pErr)) := by
  refine ⟨?_, ?_, ?_⟩
  · cases hx : r.lease.expiration.isSome <;> simp [Replica.maxClosed, hx]
  · intro hx
    simp [Replica.maxClosed, hx]
  · intro hExp hPos
    have hmc : r.maxClosed = (Timestamp.zero, false) := by
      simp [Replica.maxClosed, hExp]
    have hTs : (effectiveTimestamp ba).lessEq (r.maxClosed).fst = false := by
      rw [hmc]
      exact Timestamp.not_lessEq_zero_of_pos hPos
    constructor
    · intro hres
      obtain ⟨lErr, lh, d, hE, hLH, hEp, hLock, hAll, hTxn, hEn, hD, hT, hTs2⟩ :=
        (canServe_result_none_iff r ba pErr).mp hres
      rw [hTs] at hTs2
      cases hTs2
    · intro d hD
      cases hE : pErr.getNotLeaseHolder with
      | none => rw [canServe_no_detail r ba pErr hE]
      | some lErr =>
        cases hel : (lErr.leaseHolder.isSome && (lErr.lease.leaseType == LeaseType.Epoch)
            && (!ba.isLocking && ba.isAllTransactional)
            && txnOk ba
            && r.followerReadsEnabled) with
        | false => rw [canServe_not_eligible r ba pErr lErr hE hel]
        | true =>
          have hel2 := hel
          simp only [Bool.and_eq_true] at hel2
          obtain ⟨⟨⟨⟨hLHs, _⟩, _⟩, _⟩, _⟩ := hel2
          obtain ⟨lh, hLH⟩ := Option.isSome_iff_exists.mp hLHs
          by_cases hT : d.typ = ReplicaType.VOTER_FULL ∨ d.typ = ReplicaType.VOTER_INCOMING ∨
              d.typ = ReplicaType.NON_VOTER
          · rw [canServe_refresh r ba pErr lErr lh d hE hLH hel hD hT hTs]
          · have hT2 : d.typ = ReplicaType.VOTER_OUTGOING ∨ d.typ = ReplicaType.LEARNER := by
              cases ht : d.typ <;> simp_all
            rw [canServe_bad_type r ba pErr lErr d hE hel hD hT2]

/-- C4 witness: on `rExp` (expiration lease) a request at timestamp 90 gets
the original error back, and the amended statement holds at that input. -/
theorem followerRead_C4_witness :
    (rExp.canServeFollowerRead (roBatch ⟨90, 0⟩) pErrEpoch).result = some pErrEpoch ∧
    (((rExp.maxClosed).snd = false ↔ rExp.lease.expiration.isSome = true) ∧
    (rExp.lease.expiration.isSome = true → rExp.maxClosed = (Timestamp.zero, false)) ∧
    (rExp.lease.expiration.isSome = true →
      Timestamp.zero.less (effectiveTimestamp (roBatch ⟨90, 0⟩)) = true →
      (rExp.canServeFollowerRead (roBatch ⟨90, 0⟩) pErrEpoch).result ≠ none ∧
      (∀ d, rExp.getReplicaDescriptor = Except.ok d →
        (rExp.canServeFollowerRead (roBatch ⟨90, 0⟩) pErrEpoch).result = some pErrEpoch))) :=
  ⟨by decide, followerRead_C4 rExp (roBatch ⟨90, 0⟩) pErrEpoch⟩

/-- C6: the effective timestamp equals the request timestamp when there is
no transaction, and the maximum (forwarding) of the request timestamp and
the transaction's MaxTimestamp when there is one; consequently a request
whose transaction MaxTimestamp exceeds the maximum closed timestamp is
never served locally, even if the request timestamp itself does not. -/
theorem followerRead_C6 (r : Replica) (ba : BatchRequest) (pErr : RError) :
    (ba.txn = none → effectiveTimestamp ba = ba.timestamp) ∧
    (∀ txn, ba.txn = some txn →
      effectiveTimestamp ba = ba.timestamp.forward txn.maxTimestamp ∧
      ba.timestamp.lessEq (effectiveTimestamp ba) = true ∧
      txn.maxTimestamp.lessEq (effectiveTimestamp ba) = true) ∧
    (∀ txn, ba.txn = some txn →
      txn.maxTimestamp.lessEq (r.maxClosed).fst = false →
      (r.canServeFollowerRead ba pErr).result ≠ none) := by
  refine ⟨?_, ?_, ?_⟩
  · intro h
    simp [effectiveTimestamp, h]
  · intro txn h
    refine ⟨by simp [effectiveTimestamp, h], ?_, ?_⟩
    · simp only [effectiveTimestamp, h]
      exact Timestamp.lessEq_forward_left _ _
    · simp only [effectiveTimestamp, h]
      exact Timestamp.lessEq_forward_right _ _
  · intro txn h hmax hres
    obtain ⟨lErr, lh, d, hE, hLH, hEp, hLock, hAll, hTxn, hEn, hD, hT, hTs⟩ :=
      (canServe_result_none_iff r ba pErr).mp hres
    have h1 : txn.maxTimestamp.lessEq (effectiveTimestamp ba) = true := by
      simp only [effectiveTimestamp, h]
      exact Timestamp.lessEq_forward_right _ _
    have h2 := Timestamp.lessEq_trans h1 hTs
    rw [hmax] at h2
    cases h2

/-- C6 witness: on `rBase` (closed timestamp 100) the batch at timestamp 90
with transaction MaxTimestamp 150 is not served locally, and the effective
timestamp decomposition holds at that input. -/
theorem followerRead_C6_witness :
    (rBase.canServeFollowerRead txnBatch pErrEpoch).result = some pErrEpoch ∧
    ((txnBatch.txn = none → effectiveTimestamp txnBatch = txnBatch.timestamp) ∧
    (∀ txn, txnBatch.txn = some txn →
      effectiveTimestamp txnBatch = txnBatch.timestamp.forward txn.maxTimestamp ∧
      txnBatch.timestamp.lessEq (effectiveTimestamp txnBatch) = true ∧
      txn.maxTimestamp.lessEq (effectiveTimestamp txnBatch) = true) ∧
    (∀ txn, txnBatch.txn = some txn →
      txn.maxTimestamp.lessEq (rBase.maxClosed).fst = false →
      (rBase.canServeFollowerRead txnBatch pErrEpoch).result ≠ none)) :=
  ⟨by decide, followerRead_C6 rBase txnBatch pErrEpoch⟩

/-- C10: `canServeFollowerRead` discards the ok flag of `maxClosed` — when
the error's lease is epoch-based but the replica's current lease is
expiration-based, the effective timestamp (assumed non-negative, as hybrid
logical clock readings are) is compared against the zero timestamp, so the
request is served locally iff its effective timestamp is the zero
timestamp, and any positive effective timestamp gets the prior error
back. -/
theorem followerRead_C10 (r : Replica) (ba : BatchRequest) (pErr : RError)
    (lErr : NotLeaseHolderError) (lh d : ReplicaDescriptor)
    (hE : pErr.getNotLeaseHolder = some lErr)
    (hLH : lErr.leaseHolder = some lh)
    (hEp : lErr.lease.leaseType = LeaseType.Epoch)
    (hLock : ba.isLocking = false)
    (hAll : ba.isAllTransactional = true)
    (hTxn : txnOk ba = true)
    (hEn : r.followerReadsEnabled = true)
    (hD : r.getReplicaDescriptor = Except.ok d)
    (hT : d.typ = ReplicaType.VOTER_FULL ∨ d.typ = ReplicaType.VOTER_INCOMING ∨
      d.typ = ReplicaType.NON_VOTER)
    (hExp : r.lease.expiration.isSome = true)
    (hNN : Timestamp.zero.lessEq (effectiveTimestamp ba) = true) :
    ((r.canServeFollowerRead ba pErr).result = none ↔
      effectiveTimestamp ba = Timestamp.zero) ∧
    (Timestamp.zero.less (effectiveTimestamp ba) = true →
      (r.canServeFollowerRead ba pErr).result = some pErr) := by
  have hmc : r.maxClosed = (Timestamp.zero, false) := by
    simp [Replica.maxClosed, hExp]
  have hel : (lErr.leaseHolder.isSome && (lErr.lease.leaseType == LeaseType.Epoch)
      && (!ba.isLocking && ba.isAllTransactional)
      && txnOk ba
      && r.followerReadsEnabled) = true := by
    simp [hLH, hEp, hLock, hAll, hTxn, hEn]
  constructor
  · constructor
    · intro hres
      obtain ⟨lErr2, lh2, d2, hE2, hLH2, hEp2, hLock2, hAll2, hTxn2, hEn2, hD2, hT2, hTs2⟩ :=
        (canServe_result_none_iff r ba pErr).mp hres
      rw [hmc] at hTs2
      exact Timestamp.lessEq_antisymm hTs2 hNN
    · intro h0
      have hTs : (effectiveTimestamp ba).lessEq (r.maxClosed).fst = true := by
        rw [hmc, h0]
        exact Timestamp.lessEq_refl Timestamp.zero
      rw [canServe_serve r ba pErr lErr d hE hel hD hT hTs]
  · intro hPos
    have hTs : (effectiveTimestamp ba).lessEq (r.maxClosed).fst = false := by
      rw [hmc]
      exact Timestamp.not_lessEq_zero_of_pos hPos
    rw [canServe_refresh r ba pErr lErr lh d hE hLH hel hD hT hTs]

/-- C10 witness: on `rExp` (expiration lease) with the otherwise eligible
request at positive timestamp 90, the served-iff-zero equivalence and the
positive-timestamp bounce hold. -/
theorem followerRead_C10_witness :
    ((rExp.canServeFollowerRead (roBatch ⟨90, 0⟩) pErrEpoch).result = none ↔
      effectiveTimestamp (roBatch ⟨90, 0⟩) = Timestamp.zero) ∧
    (Timestamp.zero.less (effectiveTimestamp (roBatch ⟨90, 0⟩)) = true →
      (rExp.canServeFollowerRead (roBatch ⟨90, 0⟩) pErrEpoch).result = some pErrEpoch) :=
  followerRead_C10 rExp (roBatch ⟨90, 0⟩) pErrEpoch nlheEpoch nodeA nodeA
    rfl rfl rfl rfl rfl rfl rfl rfl (Or.inl rfl) rfl (by decide)
